import Mathlib

/-!
Shallow embedding of the Cell Products survey-completion webhook service
(file complete_subaccount_creation.py) and verification of its specified
behaviour.

The payload of a webhook is modelled as an association list from string
keys to scalar JSON values (strings or integers); the first occurrence of
a key wins, as in a Python dict built left to right.  Python semantics
that the code relies on are made explicit: truthiness of values, the
string conversion str(...), the fact that calling .strip() on a non-string
raises AttributeError (modelled with Except), and the left-to-right
non-overlapping semantics of str.replace.  The outbound HTTP call is
modelled by an oracle value: either a response (status, parsed JSON body,
raw text) or a raised network exception.  Wall-clock timestamps are passed
in as an explicit parameter.
-/

set_option maxHeartbeats 1000000

/-- A scalar JSON value as it appears in the webhook payloads: a string or
an integer. -/
inductive Val where
  | s (v : String)
  | n (v : Int)
  deriving DecidableEq, Repr

/-- The incoming payload / any JSON object: string keys to scalar values,
first occurrence of a key wins. -/
abbrev Payload := List (String × Val)

/-- Python dict lookup `d.get(k)`: the value at the first occurrence of the
key, if any. -/
def pget : Payload → String → Option Val
  | [], _ => none
  | (k, v) :: rest, key => if k = key then some v else pget rest key

/-- Python membership test `k in d`. -/
def hasKey (d : Payload) (k : String) : Bool := (pget d k).isSome

/-- Python truthiness of a scalar: a string is truthy iff non-empty, a
number iff non-zero. -/
def pyTruthy : Val → Bool
  | .s v => v != ""
  | .n v => v != 0

/-- Python `str(...)` on a scalar. -/
def pyStr : Val → String
  | .s v => v
  | .n v => toString v

/-- Characters stripped by Python `str.strip()` with no arguments. -/
def isPySpace (c : Char) : Bool :=
  c == ' ' || c == '\t' || c == '\n' || c == '\r' || c == '\x0b' || c == '\x0c'

/-- Python `str.strip()`: drop leading and trailing whitespace. -/
def pyStripStr (s : String) : String :=
  String.mk (List.reverse (List.dropWhile isPySpace
    (List.reverse (List.dropWhile isPySpace s.data))))

/-- Calling `.strip()` on a scalar value: succeeds on strings, raises
AttributeError on a number (modelled as an error result). -/
def pyStrip : Val → Except String String
  | .s v => .ok (pyStripStr v)
  | .n _ => .error "AttributeError: int object has no attribute strip"

/-- One scan step of Python `str.replace(pat, "")` for a non-empty pattern
`p :: ps`: left-to-right, non-overlapping removal of every occurrence.
The fuel argument only bounds the recursion; passing the length of the
scanned list is always sufficient because every step consumes the fuel in
lock-step with at least one character. -/
def removeAllFuel (p : Char) (ps : List Char) : Nat → List Char → List Char
  | _, [] => []
  | 0, rest => rest
  | fuel + 1, c :: cs =>
    if c == p && List.isPrefixOf ps cs then
      removeAllFuel p ps fuel (List.drop ps.length cs)
    else
      c :: removeAllFuel p ps fuel cs

/-- Python `s.replace(pat, "")`: remove every occurrence of `pat`. -/
def String.removeAll (s pat : String) : String :=
  match pat.data with
  | [] => s
  | p :: ps => String.mk (removeAllFuel p ps s.data.length s.data)

/-- Helper for Python `s.split(' ', 1)`: the part before the first space
and, if a space occurs, the remainder after it. -/
def splitFirstSpaceAux : List Char → List Char × Option (List Char)
  | [] => ([], none)
  | c :: cs =>
    if c == ' ' then ([], some cs)
    else
      let r := splitFirstSpaceAux cs
      (c :: r.1, r.2)

/-- Python `s.split(' ', 1)` reshaped as a pair: `parts[0]` and
`parts[1] if len(parts) > 1 else ""`. -/
def splitFirstSpace (s : String) : String × String :=
  let r := splitFirstSpaceAux s.data
  (String.mk r.1, String.mk (r.2.getD []))

/-- Python `a or b or ... or ""` over looked-up values: the first present
truthy value, defaulting to the empty string. -/
def firstTruthy : List (Option Val) → Val
  | [] => .s ""
  | none :: rest => firstTruthy rest
  | some v :: rest => if pyTruthy v then v else firstTruthy rest

/-- The candidate loop used for business name and the separate name fields:
take the first candidate whose value is truthy and whose stripped string
form is non-empty, and return that stripped string form
(`if field_value and str(field_value).strip(): ... break`). -/
def firstFieldMatch : List (String × Option Val) → String
  | [] => ""
  | (_, none) :: rest => firstFieldMatch rest
  | (_, some v) :: rest =>
    if pyTruthy v && pyStripStr (pyStr v) != "" then pyStripStr (pyStr v)
    else firstFieldMatch rest

/-- The ordered business-name candidate keys (lines 91-99 of the source). -/
def business_name_keys : List String :=
  ["business name", "business_name", "businessName", "company", "companyName",
   "Provider Name", "Legal Company Name"]

/-- The ordered first-name candidate keys. -/
def first_name_keys : List String :=
  ["first_name", "firstName", "fname", "Patient First Name"]

/-- The ordered last-name candidate keys. -/
def last_name_keys : List String :=
  ["last_name", "lastName", "lname", "Patient Last Name"]

/-- The ordered email candidate keys. -/
def email_keys : List String :=
  ["email", "emailAddress", "Email", "Patient Email"]

/-- The ordered phone candidate keys. -/
def phone_keys : List String :=
  ["phone", "phoneNumber", "mobile", "Phone", "Patient Phone"]

/-- The candidate dictionary for a list of keys: each key paired with its
looked-up value, in order. -/
def candPairs (d : Payload) (ks : List String) : List (String × Option Val) :=
  ks.map (fun k => (k, pget d k))

/-- Only the looked-up values of the candidates, in order. -/
def candVals (d : Payload) (ks : List String) : List (Option Val) :=
  ks.map (pget d)

/-- Business-name extraction (source lines 91-108). -/
def businessNameOf (d : Payload) : String :=
  firstFieldMatch (candPairs d business_name_keys)

/-- First-name extraction from the separate candidate fields. -/
def firstNameOf (d : Payload) : String :=
  firstFieldMatch (candPairs d first_name_keys)

/-- Last-name extraction from the separate candidate fields. -/
def lastNameOf (d : Payload) : String :=
  firstFieldMatch (candPairs d last_name_keys)

/-- The honorific removal of source line 152: every occurrence of each
pattern is removed, in this order. -/
def honorificClean (s : String) : String :=
  (((s.removeAll "Dr. ").removeAll "Mr. ").removeAll "Ms. ").removeAll "Mrs. "

/-- Name extraction (source lines 113-155): separate fields first; only if
both are empty, parse the combined name field.  The combined field is read
with `survey_data.get('name', '').strip()`, which raises on a non-string
value. -/
def namesOf (d : Payload) : Except String (String × String) :=
  let f := firstNameOf d
  let l := lastNameOf d
  if f == "" && l == "" then
    match pyStrip ((pget d "name").getD (.s "")) with
    | .error e => .error e
    | .ok full =>
      if full == "" then .ok ("", "")
      else
        let parts := splitFirstSpace (pyStripStr (honorificClean full))
        .ok (parts.1, parts.2)
  else .ok (f, l)

/-- Email extraction (source lines 157-160): `or`-chain over the raw
values, then `.strip()` on the winner (which raises on a number). -/
def emailExtract (d : Payload) : Except String String :=
  pyStrip (firstTruthy (candVals d email_keys))

/-- Phone extraction (source lines 162-166), same shape as the email
chain. -/
def phoneExtract (d : Payload) : Except String String :=
  pyStrip (firstTruthy (candVals d phone_keys))

/-- The Python single-quote character, used to render key lists inside the
validation messages the way repr does. -/
def pyQuote : String := String.mk [Char.ofNat 39]

/-- Python repr of a list of strings, as interpolated into the validation
messages. -/
def pyListRepr (ks : List String) : String :=
  "[" ++ String.intercalate ", " (ks.map (fun k => pyQuote ++ k ++ pyQuote)) ++ "]"

/-- The keys of the payload, in order. -/
def payloadKeys (d : Payload) : List String := d.map (fun p => p.1)

/-- The validation-error list of source lines 169-175. -/
def validationErrors (d : Payload) (business_name email : String) : List String :=
  (if business_name == "" then
    ["Missing business name. Checked fields: " ++ pyListRepr business_name_keys]
   else [])
  ++ (if email == "" then
    ["Missing email. Available fields: " ++ pyListRepr (payloadKeys d)]
   else [])

/-- The phone cleanup of source line 194: remove every occurrence of "+1",
then of "-", "(", ")" and " ", in this order. -/
def cleanPhoneStr (phone : String) : String :=
  ((((phone.removeAll "+1").removeAll "-").removeAll "(").removeAll ")").removeAll " "

/-- The prospectInfo block of the outbound request. -/
structure ProspectInfo where
  firstName : String
  lastName : String
  email : String
  deriving DecidableEq, Repr

/-- The static settings block of the outbound request. -/
structure CreationSettings where
  allowDuplicateContact : Bool
  allowDuplicateOpportunity : Bool
  allowFacebookNameMerge : Bool
  disableContactTimezone : Bool
  deriving DecidableEq, Repr

/-- The outbound sub-account creation request body (source lines 197-219). -/
structure SubaccountData where
  name : String
  companyId : String
  address : Val
  city : Val
  state : Val
  postalCode : Val
  country : String
  phone : String
  website : Val
  timezone : String
  prospectInfo : ProspectInfo
  settings : CreationSettings
  deriving DecidableEq, Repr

/-- Everything `create_subaccount_from_survey_data` does before the
outbound HTTP call (source lines 88-219): extraction, validation and the
construction of the request body.  An `error` result models an exception
raised before the call (ValueError from validation, or AttributeError from
calling .strip() on a non-string). -/
def normalizeAndValidate (d : Payload) : Except String SubaccountData :=
  let business_name := businessNameOf d
  match namesOf d with
  | .error e => .error e
  | .ok (f0, l0) =>
    match emailExtract d with
    | .error e => .error e
    | .ok email =>
      match phoneExtract d with
      | .error e => .error e
      | .ok phone =>
        if (validationErrors d business_name email).isEmpty then
          let first_name := if f0 == "" then "Contact" else f0
          let last_name := if l0 == "" then "Person" else l0
          let clean_phone := cleanPhoneStr phone
          .ok {
            name := business_name
            companyId := "UAXssdawIWAWD"
            address := (pget d "address").getD (.s "")
            city := (pget d "city").getD (.s "")
            state := (pget d "state").getD (.s "")
            postalCode := (pget d "zip_code").getD (.s "")
            country := "US"
            phone := if clean_phone == "" then "" else "+1" ++ clean_phone
            website := (pget d "website").getD (.s "")
            timezone := "America/Phoenix"
            prospectInfo := { firstName := first_name, lastName := last_name, email := email }
            settings := ⟨false, false, false, false⟩ }
        else
          .error ("Required field validation failed: "
            ++ String.intercalate "; " (validationErrors d business_name email))

/-- A response of the outbound call: HTTP status, parsed JSON body, raw
text. -/
structure HttpResp where
  status : Nat
  body : Payload
  text : String
  deriving DecidableEq, Repr

/-- Outcome of attempting the outbound call: a response, or a raised
network-level exception with its message. -/
inductive HttpOutcome where
  | resp (r : HttpResp)
  | exn (msg : String)
  deriving DecidableEq, Repr

/-- The value returned by `create_subaccount_from_survey_data`: the success
dictionary or the failure dictionary. -/
inductive CreateResult where
  | ok (sub_account_id : Val) (business_name contact_name email created_at : String)
  | fail (error : String)
  deriving DecidableEq, Repr

/-- The `success` field of the returned dictionary. -/
def CreateResult.success : CreateResult → Bool
  | .ok _ _ _ _ _ => true
  | .fail _ => false

/-- The `sub_account_id` field of the returned dictionary, when present. -/
def CreateResult.subAccountId : CreateResult → Option Val
  | .ok v _ _ _ _ => some v
  | .fail _ => none

/-- The `error` field of the returned dictionary, when present. -/
def CreateResult.errorMsg : CreateResult → Option String
  | .ok _ _ _ _ _ => none
  | .fail e => some e

/-- `create_subaccount_from_survey_data` (source lines 83-273): normalize
and validate; on success issue the call and interpret the outcome.  Status
200 or 201 is success with `result.get('id', 'N/A')`; any other status is
the failure dictionary embedding status and text; a raised exception is
caught and becomes the failure dictionary. -/
def create_subaccount_from_survey_data (d : Payload) (o : HttpOutcome) (now : String) :
    CreateResult :=
  match normalizeAndValidate d with
  | .error e => .fail ("Error creating sub-account: " ++ e)
  | .ok data =>
    match o with
    | .exn m => .fail ("Error creating sub-account: " ++ m)
    | .resp r =>
      if r.status == 200 || r.status == 201 then
        .ok ((pget r.body "id").getD (.s "N/A")) data.name
          (data.prospectInfo.firstName ++ " " ++ data.prospectInfo.lastName)
          data.prospectInfo.email now
      else
        .fail ("Sub-account creation failed: " ++ toString r.status ++ " - " ++ r.text)

/-- Whether the outbound HTTP call (requests.post, source line 236) is
executed for this payload: exactly when no exception is raised before it,
i.e. when normalization and validation succeed. -/
def outboundCallIssued (d : Payload) : Bool :=
  match normalizeAndValidate d with
  | .ok _ => true
  | .error _ => false

/-- `validate_webhook_auth` (source lines 58-71): present in the code but
commented out of the route. -/
def validate_webhook_auth (auth_header : Option String) : Bool :=
  match auth_header with
  | none => false
  | some h => h == "Bearer cell-products-survey-webhook-2025"

/-- `validate_cell_products_source` (source lines 73-81): the extracted
identifier equals the configured location id.  A non-string identifier
never equals the configured string. -/
def validate_cell_products_source (cfg : String) (source_location_id : Val) : Bool :=
  match source_location_id with
  | .s x => x == cfg
  | .n _ => false

/-- The location-id extraction of source lines 306-308:
`payload.get('locationId') or payload.get('location_id') or
payload.get('location', {}).get('id', '')`.  The last disjunct is only
evaluated when the first two are falsy; in the scalar value universe a
present `location` value is never a dict, so `.get` on it raises
(modelled as an error). -/
def extractSourceLocationId (p : Payload) : Except String Val :=
  let a := firstTruthy [pget p "locationId", pget p "location_id"]
  if pyTruthy a then .ok a
  else
    match pget p "location" with
    | none => .ok (.s "")
    | some _ => .error "AttributeError: scalar has no attribute get"

/-- Python dict assignment `d[k] = v`: replace the value at an existing
key, else append the new key. -/
def setKey (d : Payload) (k : String) (v : Val) : Payload :=
  if hasKey d k then d.map (fun p => if p.1 = k then (k, v) else p)
  else d ++ [(k, v)]

/-- The handler key-normalization of source lines 318-320: copy
"business name" to "business_name" when only the former is present. -/
def normalizeBusinessKey (p : Payload) : Payload :=
  if hasKey p "business name" && !hasKey p "business_name" then
    setKey p "business_name" ((pget p "business name").getD (.s ""))
  else p

/-- The handler key-normalization of source lines 323-328: split a
combined "name" value (via str, so it never raises) into first_name and
last_name when neither is present. -/
def normalizeNameKey (sd : Payload) : Payload :=
  if hasKey sd "name" && (!hasKey sd "first_name" && !hasKey sd "last_name") then
    let full := pyStripStr (honorificClean (pyStr ((pget sd "name").getD (.s ""))))
    let parts := splitFirstSpace full
    setKey (setKey sd "first_name" (.s parts.1)) "last_name" (.s parts.2)
  else sd

/-- The survey-data normalization performed by the handler before invoking
the creation function (source lines 315-328). -/
def normalizeSurveyData (p : Payload) : Payload :=
  normalizeNameKey (normalizeBusinessKey p)

/-- The JSON body of a handler response, with constant-message fields
left implicit and wall-clock timestamps passed in explicitly. -/
inductive RespBody where
  | err (error : String)
  | failure (error timestamp : String)
  | success (sub_account_id : Val)
      (business_name contact_name email created_at timestamp : String)
  deriving DecidableEq, Repr

/-- The observable outcome of one handler invocation: HTTP status, response
body, whether `create_subaccount_from_survey_data` was invoked, and whether
the outbound HTTP call was issued. -/
structure HandlerResult where
  status : Nat
  body : RespBody
  normalizerInvoked : Bool
  callIssued : Bool
  deriving DecidableEq, Repr

/-- `handle_survey_completion` (source lines 275-410).  The Authorization
header is received but never consulted (the auth check is commented out);
`payloadOpt = none` models a request whose body is not a JSON object, and
an empty payload is falsy, both rejected as missing JSON.  A crash while
extracting the location id is caught by the top-level handler and becomes
a generic 500. -/
def handle_survey_completion (cfg : String) (_auth_header : Option String)
    (payloadOpt : Option Payload) (o : HttpOutcome) (now : String) : HandlerResult :=
  match payloadOpt with
  | none => ⟨400, .err "No JSON payload", false, false⟩
  | some payload =>
    if payload.isEmpty then ⟨400, .err "No JSON payload", false, false⟩
    else
      match extractSourceLocationId payload with
      | .error m =>
        ⟨500, .failure ("Survey webhook processing error: " ++ m) now, false, false⟩
      | .ok src =>
        if pyTruthy src && !validate_cell_products_source cfg src then
          ⟨403, .err "Unauthorized source location", false, false⟩
        else
          let sd := normalizeSurveyData payload
          if sd.isEmpty then ⟨400, .err "No survey data", false, false⟩
          else
            match create_subaccount_from_survey_data sd o now with
            | .ok id bn cn em ca =>
              ⟨200, .success id bn cn em ca now, true, outboundCallIssued sd⟩
            | .fail e => ⟨500, .failure e now, true, outboundCallIssued sd⟩

/-- Follows the words of the first-match claim: the value of the first
listed candidate whose trimmed value is non-empty (to be compared with the
extraction the code performs). -/
def firstNonEmptyTrimmed : List (Option Val) → String
  | [] => ""
  | none :: rest => firstNonEmptyTrimmed rest
  | some v :: rest =>
    if pyStripStr (pyStr v) != "" then pyStripStr (pyStr v)
    else firstNonEmptyTrimmed rest

/-- The amended first-match rule: the first candidate that is truthy and
whose stripped string form is non-empty. -/
def firstTruthyNonEmptyTrimmed : List (Option Val) → String
  | [] => ""
  | none :: rest => firstTruthyNonEmptyTrimmed rest
  | some v :: rest =>
    if pyTruthy v && pyStripStr (pyStr v) != "" then pyStripStr (pyStr v)
    else firstTruthyNonEmptyTrimmed rest

/-- Follows the words of the phone-cleanup claim: remove a leading "+1"
(only), then hyphens, parentheses and spaces (to be compared with the
cleanup the code performs). -/
def leadingPlusOneCleanPhone (s : String) : String :=
  let s1 := if List.isPrefixOf ['+', '1'] s.data then String.mk (s.data.drop 2) else s
  (((s1.removeAll "-").removeAll "(").removeAll ")").removeAll " "

/-- Projection used by concrete counterexamples: the lastName the outbound
record would carry. -/
def recordLastName (d : Payload) : Except String String :=
  (normalizeAndValidate d).map (fun o => o.prospectInfo.lastName)

/-- Projection used by concrete counterexamples: the phone the outbound
record would carry. -/
def recordPhone (d : Payload) : Except String String :=
  (normalizeAndValidate d).map (fun o => o.phone)

instance instDecEqExcept {ε α : Type} [DecidableEq ε] [DecidableEq α] :
    DecidableEq (Except ε α) := fun a b =>
  match a, b with
  | .ok x, .ok y =>
    if h : x = y then isTrue (by rw [h]) else isFalse (fun c => h (Except.ok.inj c))
  | .ok _, .error _ => isFalse (fun c => Except.noConfusion c)
  | .error _, .ok _ => isFalse (fun c => Except.noConfusion c)
  | .error e, .error f =>
    if h : e = f then isTrue (by rw [h]) else isFalse (fun c => h (Except.error.inj c))

/-- A concrete payload whose only name information is a single-word
combined name. -/
def dMadonna : Payload :=
  [("name", Val.s "Madonna"), ("business_name", Val.s "MadCo"),
   ("email", Val.s "m@x.io")]

/-- The outbound record the code builds for `dMadonna`. -/
def dataMadonna : SubaccountData :=
  ⟨"MadCo", "UAXssdawIWAWD", .s "", .s "", .s "", .s "", "US", "", .s "",
   "America/Phoenix", ⟨"Madonna", "Person", "m@x.io"⟩, ⟨false, false, false, false⟩⟩

/-- A minimal valid payload: business name and email only. -/
def dOK : Payload := [("business_name", Val.s "B"), ("email", Val.s "e@x.io")]

/-- The outbound record the code builds for `dOK`. -/
def dataOK : SubaccountData :=
  ⟨"B", "UAXssdawIWAWD", .s "", .s "", .s "", .s "", "US", "", .s "",
   "America/Phoenix", ⟨"Contact", "Person", "e@x.io"⟩, ⟨false, false, false, false⟩⟩

/-- A valid payload carrying the formatted phone number of the spec
example. -/
def dPhone : Payload :=
  [("business_name", Val.s "B"), ("email", Val.s "e@x.io"),
   ("phone", Val.s "+1 (555) 123-4567")]

/-- The outbound record the code builds for `dPhone`. -/
def dataPhone : SubaccountData :=
  ⟨"B", "UAXssdawIWAWD", .s "", .s "", .s "", .s "", "US", "+15551234567", .s "",
   "America/Phoenix", ⟨"Contact", "Person", "e@x.io"⟩, ⟨false, false, false, false⟩⟩

/-- A payload whose first email candidate is the falsy number 0 while a
later candidate holds a valid address. -/
def dFalsyEmail : Payload :=
  [("email", Val.n 0), ("Email", Val.s "a@b.c"), ("business_name", Val.s "Biz")]

/-! ## General lemmas about the extraction machinery -/

theorem firstFieldMatch_eq_vals (l : List (String × Option Val)) :
    firstFieldMatch l = firstTruthyNonEmptyTrimmed (l.map Prod.snd) := by
  induction l with
  | nil => rfl
  | cons h t ih =>
    obtain ⟨k, v⟩ := h
    cases v with
    | none => simpa [firstFieldMatch, firstTruthyNonEmptyTrimmed] using ih
    | some v =>
      simp only [List.map_cons, firstFieldMatch, firstTruthyNonEmptyTrimmed]
      split <;> simp [ih]

theorem candPairs_map_snd (d : Payload) (ks : List String) :
    (candPairs d ks).map Prod.snd = candVals d ks := by
  simp [candPairs, candVals, List.map_map]

theorem normalize_error_of_missing (d : Payload)
    (h : businessNameOf d = "" ∨ emailExtract d = Except.ok "") :
    ∃ e, normalizeAndValidate d = Except.error e := by
  simp only [normalizeAndValidate]
  cases hn : namesOf d with
  | error e => exact ⟨e, rfl⟩
  | ok fl =>
    obtain ⟨f0, l0⟩ := fl
    cases he : emailExtract d with
    | error e => exact ⟨e, rfl⟩
    | ok email =>
      cases hp : phoneExtract d with
      | error e => exact ⟨e, rfl⟩
      | ok phone =>
        have hv : (validationErrors d (businessNameOf d) email).isEmpty = false := by
          rcases h with h | h
          · simp [validationErrors, h]
          · rw [he] at h
            have hem : email = "" := Except.ok.inj h
            by_cases hbn : (businessNameOf d == "") = true <;>
              simp [validationErrors, hem, hbn]
        simp only [hv, Bool.false_eq_true, if_false]
        exact ⟨_, rfl⟩

/-! ## Claim C2 -/

/-- C2: whenever the extracted business name or the extracted email is
empty, processing ends in a failure result and the outbound
account-creation HTTP call is never issued, so no account is created on
any such path.  (When the email extraction yields the empty string while a
phone candidate is a non-string, the failure is raised even earlier, still
before any call.) -/
theorem missing_required_fields_no_call (d : Payload)
    (h : businessNameOf d = "" ∨ emailExtract d = Except.ok "") :
    outboundCallIssued d = false ∧
    ∀ (o : HttpOutcome) (now : String),
      (create_subaccount_from_survey_data d o now).success = false := by
  obtain ⟨e, he⟩ := normalize_error_of_missing d h
  refine ⟨by simp [outboundCallIssued, he], ?_⟩
  intro o now
  simp [create_subaccount_from_survey_data, he, CreateResult.success]

/-- Witness for C2: a payload with an email but no business-name candidate
is rejected without any outbound call. -/
theorem missing_required_fields_no_call_witness :
    outboundCallIssued [("email", Val.s "a@b.c")] = false ∧
    (create_subaccount_from_survey_data [("email", Val.s "a@b.c")]
      (.resp ⟨200, [], ""⟩) "t").success = false := by
  have h := missing_required_fields_no_call [("email", Val.s "a@b.c")]
    (Or.inl (by decide))
  exact ⟨h.1, h.2 _ _⟩

/-! ## Claim C1 -/

/-- C1 counterexample: in the email candidate list, the first listed key
holding a whitespace-only value (truthy, but empty once trimmed) shadows a
later candidate with a non-empty trimmed value.  The first listed key with
a non-empty trimmed value is emailAddress with "a@b.c", yet the code
extracts the empty string. -/
theorem email_whitespace_shadows_counterexample :
    emailExtract [("email", Val.s " "), ("emailAddress", Val.s "a@b.c")]
      = Except.ok "" ∧
    firstNonEmptyTrimmed
      (candVals [("email", Val.s " "), ("emailAddress", Val.s "a@b.c")] email_keys)
      = "a@b.c" := by
  constructor <;> decide

/-- C1 (amended): for the business-name, first-name and last-name candidate
lists, the extracted value is that of the first listed key whose value is
truthy and trims to a non-empty string, and later candidates are never
consulted once one matches (business_name "A" with company "B" yields "A").
For the email and phone lists, the first listed key with a truthy value
wins and its value is trimmed afterwards, so a whitespace-only value
shadows later non-empty candidates and yields the empty string. -/
theorem candidate_first_match_amended :
    (∀ d : Payload,
      businessNameOf d = firstTruthyNonEmptyTrimmed (candVals d business_name_keys)
      ∧ firstNameOf d = firstTruthyNonEmptyTrimmed (candVals d first_name_keys)
      ∧ lastNameOf d = firstTruthyNonEmptyTrimmed (candVals d last_name_keys))
    ∧ (∀ (d : Payload) (v : Val), pget d "email" = some v → pyTruthy v = true →
        emailExtract d = pyStrip v)
    ∧ (∀ (d : Payload) (v : Val), pget d "phone" = some v → pyTruthy v = true →
        phoneExtract d = pyStrip v)
    ∧ businessNameOf [("business_name", Val.s "A"), ("company", Val.s "B")] = "A"
    ∧ emailExtract [("email", Val.s " "), ("emailAddress", Val.s "a@b.c")]
        = Except.ok "" := by
  refine ⟨?_, ?_, ?_, by decide, by decide⟩
  · intro d
    refine ⟨?_, ?_, ?_⟩ <;>
      simp [businessNameOf, firstNameOf, lastNameOf, firstFieldMatch_eq_vals,
        candPairs_map_snd]
  · intro d v hv ht
    simp [emailExtract, candVals, email_keys, hv, firstTruthy, ht]
  · intro d v hv ht
    simp [phoneExtract, candVals, phone_keys, hv, firstTruthy, ht]

/-- Witness for C1 (amended), applying the truthy-first-wins rule of the
email chain at a concrete payload. -/
theorem candidate_first_match_amended_witness :
    emailExtract [("email", Val.s " x@y ")] = pyStrip (Val.s " x@y ") :=
  candidate_first_match_amended.2.1 [("email", Val.s " x@y ")] (Val.s " x@y ")
    (by decide) (by decide)

/-! ## Claim C5 -/

/-- C5 counterexample: the payload whose only name information is the
combined name "Madonna" parses to firstName "Madonna" with an empty last
name, yet the outbound record still receives the default lastName
"Person" - the defaults are applied after combined-name parsing as well,
not only when names are entirely missing pre-parse. -/
theorem madonna_lastname_person_counterexample :
    namesOf dMadonna = Except.ok ("Madonna", "") ∧
    recordLastName dMadonna = Except.ok "Person" := by
  constructor <;> decide

/-- C5 (amended): when no separate first/last-name candidate matches, the
combined name field is parsed by removing the honorific patterns, trimming
and splitting on the first space ("Dr. Jane Smith" gives ("Jane", "Smith"),
"Madonna" gives ("Madonna", "")); the defaults "Contact" and "Person" are
then applied to any component that is still empty after parsing, so a
post-parse empty last name also becomes "Person" in the record. -/
theorem combined_name_parse_amended :
    namesOf [("name", Val.s "Dr. Jane Smith")] = Except.ok ("Jane", "Smith")
    ∧ namesOf [("name", Val.s "Madonna")] = Except.ok ("Madonna", "")
    ∧ ∀ (d : Payload) (data : SubaccountData) (f l : String),
        normalizeAndValidate d = Except.ok data → namesOf d = Except.ok (f, l) →
        data.prospectInfo.firstName = (if f == "" then "Contact" else f)
        ∧ data.prospectInfo.lastName = (if l == "" then "Person" else l) := by
  refine ⟨by decide, by decide, ?_⟩
  intro d data f l hnorm hnames
  simp only [normalizeAndValidate, hnames] at hnorm
  cases he : emailExtract d with
  | error e => simp [he] at hnorm
  | ok email =>
    simp only [he] at hnorm
    cases hp : phoneExtract d with
    | error e => simp [hp] at hnorm
    | ok phone =>
      simp only [hp] at hnorm
      by_cases hv : (validationErrors d (businessNameOf d) email).isEmpty = true
      · simp only [hv, if_true] at hnorm
        refine ⟨?_, ?_⟩ <;> rw [← Except.ok.inj hnorm]
      · simp [hv] at hnorm

/-- Witness for C5 (amended) at the Madonna payload. -/
theorem combined_name_parse_amended_witness :
    dataMadonna.prospectInfo.firstName = "Madonna" ∧
    dataMadonna.prospectInfo.lastName = "Person" := by
  have h := combined_name_parse_amended.2.2 dMadonna dataMadonna "Madonna" ""
    (by decide) (by decide)
  refine ⟨?_, ?_⟩
  · rw [h.1]; decide
  · rw [h.2]; decide

/-! ## Claim C7 -/

/-- C7 counterexample: the cleanup removes every occurrence of the
substring "+1", not only a leading one.  On "555+1234567" the claimed
leading-only cleanup leaves the string unchanged, while the code removes
the inner "+1" and emits "+1555234567". -/
theorem phone_plus_one_everywhere_counterexample :
    cleanPhoneStr "555+1234567" = "555234567" ∧
    leadingPlusOneCleanPhone "555+1234567" = "555+1234567" ∧
    recordPhone [("business_name", Val.s "B"), ("email", Val.s "e@x.io"),
      ("phone", Val.s "555+1234567")] = Except.ok "+1555234567" := by
  refine ⟨by decide, by decide, by decide⟩

/-- C7 (amended): phone cleanup removes every occurrence of the substring
"+1" (not only a leading one), then hyphens, parentheses and spaces; if the
cleaned result is non-empty it is re-prefixed with "+1" in the outbound
record, and an empty phone stays empty.  The example of the claim holds:
"+1 (555) 123-4567" cleans to "5551234567". -/
theorem phone_cleanup_amended :
    (∀ (d : Payload) (data : SubaccountData),
      normalizeAndValidate d = Except.ok data →
      ∃ ph, phoneExtract d = Except.ok ph
        ∧ data.phone = (if cleanPhoneStr ph == "" then "" else "+1" ++ cleanPhoneStr ph))
    ∧ cleanPhoneStr "+1 (555) 123-4567" = "5551234567"
    ∧ cleanPhoneStr "555+1234567" = "555234567"
    ∧ cleanPhoneStr "" = "" := by
  refine ⟨?_, by decide, by decide, by decide⟩
  intro d data hnorm
  simp only [normalizeAndValidate] at hnorm
  cases hn : namesOf d with
  | error e => simp [hn] at hnorm
  | ok fl =>
    obtain ⟨f0, l0⟩ := fl
    simp only [hn] at hnorm
    cases he : emailExtract d with
    | error e => simp [he] at hnorm
    | ok email =>
      simp only [he] at hnorm
      cases hp : phoneExtract d with
      | error e => simp [hp] at hnorm
      | ok phone =>
        simp only [hp] at hnorm
        by_cases hv : (validationErrors d (businessNameOf d) email).isEmpty = true
        · simp only [hv, if_true] at hnorm
          exact ⟨phone, rfl, by rw [← Except.ok.inj hnorm]⟩
        · simp [hv] at hnorm

/-- Witness for C7 (amended) at the formatted phone number of the spec
example. -/
theorem phone_cleanup_amended_witness :
    dataPhone.phone = "+15551234567" := by
  obtain ⟨ph, hph, hphone⟩ := phone_cleanup_amended.1 dPhone dataPhone (by decide)
  have hp2 : phoneExtract dPhone = Except.ok "+1 (555) 123-4567" := by decide
  rw [hph] at hp2
  rw [hphone, Except.ok.inj hp2]
  decide

/-! ## Claim C4 -/

/-- C4: for every outcome of the outbound account-creation call, once the
request body was built successfully: status 200 or 201 yields the success
result carrying the identifier of the remote response body (defaulting to
"N/A"); any other status yields the failure result whose error detail is
exactly the message embedding the status code and the response text; and a
raised network exception is caught and reported as a failure result, never
propagated. -/
theorem outbound_response_handling (d : Payload) (data : SubaccountData) (now : String)
    (hnorm : normalizeAndValidate d = Except.ok data) :
    (∀ r : HttpResp, r.status = 200 ∨ r.status = 201 →
      create_subaccount_from_survey_data d (.resp r) now =
        .ok ((pget r.body "id").getD (.s "N/A")) data.name
          (data.prospectInfo.firstName ++ " " ++ data.prospectInfo.lastName)
          data.prospectInfo.email now)
    ∧ (∀ r : HttpResp, r.status ≠ 200 → r.status ≠ 201 →
      create_subaccount_from_survey_data d (.resp r) now =
        .fail ("Sub-account creation failed: " ++ toString r.status ++ " - " ++ r.text))
    ∧ (∀ m : String, create_subaccount_from_survey_data d (.exn m) now =
        .fail ("Error creating sub-account: " ++ m)) := by
  refine ⟨?_, ?_, ?_⟩
  · intro r hr
    have hb : (r.status == 200 || r.status == 201) = true := by
      rcases hr with h | h <;> simp [h]
    simp [create_subaccount_from_survey_data, hnorm, hb]
  · intro r h1 h2
    have hb : (r.status == 200 || r.status == 201) = false := by simp [h1, h2]
    simp [create_subaccount_from_survey_data, hnorm, hb]
  · intro m
    simp [create_subaccount_from_survey_data, hnorm]

/-- Witness for C4: a 422 response and a network exception both become
failure results for a concrete valid payload. -/
theorem outbound_response_handling_witness :
    create_subaccount_from_survey_data dOK (.resp ⟨422, [], "Unprocessable"⟩) "t"
      = .fail ("Sub-account creation failed: " ++ toString (422 : Nat) ++ " - "
          ++ "Unprocessable")
    ∧ create_subaccount_from_survey_data dOK (.exn "Connection timed out") "t"
      = .fail ("Error creating sub-account: " ++ "Connection timed out") := by
  have h := outbound_response_handling dOK dataOK "t" (by decide)
  exact ⟨h.2.1 ⟨422, [], "Unprocessable"⟩ (by decide) (by decide), h.2.2 _⟩

/-! ## Claim C9 -/

/-- C9: when the outbound call returns status 200 or 201, the result is a
success whose sub_account_id is the id field of the remote JSON body, and
is the literal string "N/A" when that body has no id field - a 2xx
response without an id is still reported as success. -/
theorem subaccount_id_from_response (d : Payload) (now : String) (r : HttpResp)
    (hok : outboundCallIssued d = true) (hst : r.status = 200 ∨ r.status = 201) :
    (create_subaccount_from_survey_data d (.resp r) now).success = true
    ∧ (pget r.body "id" = none →
        (create_subaccount_from_survey_data d (.resp r) now).subAccountId
          = some (Val.s "N/A"))
    ∧ (∀ v : Val, pget r.body "id" = some v →
        (create_subaccount_from_survey_data d (.resp r) now).subAccountId = some v) := by
  cases hn : normalizeAndValidate d with
  | error e => simp [outboundCallIssued, hn] at hok
  | ok data =>
    have hb : (r.status == 200 || r.status == 201) = true := by
      rcases hst with h | h <;> simp [h]
    refine ⟨?_, ?_, ?_⟩
    · simp [create_subaccount_from_survey_data, hn, hb, CreateResult.success]
    · intro hid
      simp [create_subaccount_from_survey_data, hn, hb, hid, CreateResult.subAccountId]
    · intro v hid
      simp [create_subaccount_from_survey_data, hn, hb, hid, CreateResult.subAccountId]

/-- Witness for C9: a 201 response with id "abc123" and a 200 response
without an id field, both on a concrete valid payload. -/
theorem subaccount_id_from_response_witness :
    (create_subaccount_from_survey_data dOK
      (.resp ⟨201, [("id", Val.s "abc123")], ""⟩) "t").subAccountId
        = some (Val.s "abc123")
    ∧ (create_subaccount_from_survey_data dOK (.resp ⟨200, [], ""⟩) "t").subAccountId
        = some (Val.s "N/A") := by
  refine ⟨?_, ?_⟩
  · exact (subaccount_id_from_response dOK "t" ⟨201, [("id", Val.s "abc123")], ""⟩
      (by decide) (Or.inr rfl)).2.2 (Val.s "abc123") (by decide)
  · exact (subaccount_id_from_response dOK "t" ⟨200, [], ""⟩
      (by decide) (Or.inl rfl)).2.1 (by decide)

/-! ## Claim C10 -/

theorem normalize_error_of_extract_error (d : Payload)
    (h : (∃ m, emailExtract d = Except.error m)
       ∨ (∃ m, phoneExtract d = Except.error m)) :
    ∃ e, normalizeAndValidate d = Except.error e := by
  simp only [normalizeAndValidate]
  cases hn : namesOf d with
  | error e => exact ⟨e, rfl⟩
  | ok fl =>
    obtain ⟨f0, l0⟩ := fl
    cases he : emailExtract d with
    | error e => exact ⟨e, rfl⟩
    | ok email =>
      cases hp : phoneExtract d with
      | error e => exact ⟨e, rfl⟩
      | ok phone =>
        rcases h with ⟨m, hm⟩ | ⟨m, hm⟩
        · rw [he] at hm; exact Except.noConfusion hm
        · rw [hp] at hm; exact Except.noConfusion hm

/-- C10 counterexample: the first present email candidate is the number 0,
a non-string scalar, yet the operation succeeds and issues the outbound
call - a falsy non-string is skipped by the `or`-chain like an absent key
instead of crashing .strip(). -/
theorem falsy_number_candidate_counterexample :
    pget dFalsyEmail "email" = some (Val.n 0)
    ∧ outboundCallIssued dFalsyEmail = true
    ∧ (create_subaccount_from_survey_data dFalsyEmail
        (.resp ⟨200, [("id", Val.s "X")], ""⟩) "t").success = true := by
  refine ⟨by decide, by decide, by decide⟩

/-- C10 (amended): if the first truthy email or phone candidate is a
non-string scalar (a non-zero number), the operation returns a failure
result and no outbound call is issued, even when a valid business name and
a valid string email exist under other keys, because the chains call
.strip() on the raw truthy value without string coercion. -/
theorem truthy_nonstring_candidate_fails_amended (d : Payload) (k : Int)
    (h : firstTruthy (candVals d email_keys) = Val.n k
       ∨ firstTruthy (candVals d phone_keys) = Val.n k) :
    outboundCallIssued d = false
    ∧ ∀ (o : HttpOutcome) (now : String),
        (create_subaccount_from_survey_data d o now).success = false := by
  have hx : (∃ m, emailExtract d = Except.error m)
      ∨ (∃ m, phoneExtract d = Except.error m) := by
    rcases h with h | h
    · exact Or.inl ⟨"AttributeError: int object has no attribute strip",
        by simp only [emailExtract]; rw [h]; rfl⟩
    · exact Or.inr ⟨"AttributeError: int object has no attribute strip",
        by simp only [phoneExtract]; rw [h]; rfl⟩
  obtain ⟨e, he⟩ := normalize_error_of_extract_error d hx
  refine ⟨by simp [outboundCallIssued, he], ?_⟩
  intro o now
  simp [create_subaccount_from_survey_data, he, CreateResult.success]

/-- Witness for C10 (amended): a truthy numeric email candidate next to a
valid business name fails with no outbound call. -/
theorem truthy_nonstring_candidate_fails_witness :
    outboundCallIssued [("email", Val.n 5), ("business_name", Val.s "B")] = false
    ∧ (create_subaccount_from_survey_data
        [("email", Val.n 5), ("business_name", Val.s "B")]
        (.resp ⟨200, [], ""⟩) "t").success = false := by
  have h := truthy_nonstring_candidate_fails_amended
    [("email", Val.n 5), ("business_name", Val.s "B")] 5 (Or.inl (by decide))
  exact ⟨h.1, h.2 _ _⟩

/-! ## Claim C8 -/

/-- C8: the survey-completion handler never consults the Authorization
header - the bearer-token check validate_webhook_auth exists in the code
but is commented out of the route - so any two requests differing only in
that header produce identical responses, and no request is rejected for a
missing or wrong token. -/
theorem auth_header_ignored (cfg now : String) (a1 a2 : Option String)
    (p : Option Payload) (o : HttpOutcome) :
    handle_survey_completion cfg a1 p o now = handle_survey_completion cfg a2 p o now := rfl

/-! ## Lemmas about dict assignment and the handler key-normalization -/

theorem pget_none_of_hasKey_false {d : Payload} {k : String} (h : hasKey d k = false) :
    pget d k = none := by
  unfold hasKey at h
  cases hp : pget d k with
  | none => rfl
  | some v => rw [hp] at h; simp at h

theorem exists_pget_of_hasKey {d : Payload} {k : String} (h : hasKey d k = true) :
    ∃ v, pget d k = some v := by
  unfold hasKey at h
  exact Option.isSome_iff_exists.mp h

theorem pget_append_none {d e : Payload} {k : String} (h : pget d k = none) :
    pget (d ++ e) k = pget e k := by
  induction d with
  | nil => simp
  | cons a t ih =>
    obtain ⟨k1, v1⟩ := a
    by_cases hk : k1 = k
    · simp [pget, hk] at h
    · simp only [List.cons_append, pget, if_neg hk] at h ⊢
      exact ih h

theorem pget_append_some {d e : Payload} {k : String} {v : Val} (h : pget d k = some v) :
    pget (d ++ e) k = some v := by
  induction d with
  | nil => simp [pget] at h
  | cons a t ih =>
    obtain ⟨k1, v1⟩ := a
    by_cases hk : k1 = k
    · simp only [List.cons_append, pget, if_pos hk] at h ⊢; exact h
    · simp only [List.cons_append, pget, if_neg hk] at h ⊢; exact ih h

theorem pget_cons (k1 : String) (v1 : Val) (t : Payload) (key : String) :
    pget ((k1, v1) :: t) key = if k1 = key then some v1 else pget t key := rfl

theorem pget_map_setKey_ne {d : Payload} {k k' : String} {v : Val} (hne : k' ≠ k) :
    pget (d.map (fun p => if p.1 = k then (k, v) else p)) k' = pget d k' := by
  induction d with
  | nil => rfl
  | cons a t ih =>
    obtain ⟨k1, v1⟩ := a
    simp only [List.map_cons]
    by_cases h1 : k1 = k
    · have e1 : ¬ (k = k') := fun hh => hne hh.symm
      have e2 : ¬ (k1 = k') := by rw [h1]; exact e1
      rw [if_pos h1, pget_cons, pget_cons, if_neg e1, if_neg e2]
      exact ih
    · rw [if_neg h1, pget_cons, pget_cons]
      by_cases h2 : k1 = k'
      · rw [if_pos h2, if_pos h2]
      · rw [if_neg h2, if_neg h2]; exact ih

theorem pget_setKey_ne {d : Payload} {k k' : String} {v : Val} (hne : k' ≠ k) :
    pget (setKey d k v) k' = pget d k' := by
  unfold setKey
  split
  · exact pget_map_setKey_ne hne
  · cases hp : pget d k' with
    | none =>
      rw [pget_append_none hp]
      have e1 : ¬ (k = k') := fun hh => hne hh.symm
      simp [pget, e1, hp]
    | some w => rw [pget_append_some hp]

theorem pget_setKey_self {d : Payload} {k : String} {v : Val} (h : hasKey d k = false) :
    pget (setKey d k v) k = some v := by
  unfold setKey
  rw [if_neg (by simp [h])]
  rw [pget_append_none (pget_none_of_hasKey_false h)]
  simp [pget]

theorem firstFieldMatch_congr {d1 d2 : Payload} (ks : List String)
    (h : ∀ k ∈ ks, pget d1 k = pget d2 k) :
    firstFieldMatch (candPairs d1 ks) = firstFieldMatch (candPairs d2 ks) := by
  induction ks with
  | nil => rfl
  | cons k t ih =>
    have hk := h k (by simp)
    have ht : ∀ k2 ∈ t, pget d1 k2 = pget d2 k2 := fun k2 hk2 => h k2 (by simp [hk2])
    simp only [candPairs, List.map_cons]
    rw [hk]
    cases hv : pget d2 k with
    | none => simpa [firstFieldMatch] using ih ht
    | some v =>
      simp only [firstFieldMatch]
      split
      · rfl
      · exact ih ht

theorem businessNameOf_congr {d1 d2 : Payload}
    (h : ∀ k ∈ business_name_keys, pget d1 k = pget d2 k) :
    businessNameOf d1 = businessNameOf d2 :=
  firstFieldMatch_congr business_name_keys h

theorem businessNameOf_normalizeBusinessKey (p : Payload) :
    businessNameOf (normalizeBusinessKey p) = businessNameOf p := by
  simp only [normalizeBusinessKey]
  by_cases hc : (hasKey p "business name" && !hasKey p "business_name") = true
  · simp only [hc, if_true]
    have h12 : hasKey p "business name" = true ∧ hasKey p "business_name" = false := by
      simpa using hc
    have h1 := h12.1
    have h2 := h12.2
    obtain ⟨v0, hv0⟩ := exists_pget_of_hasKey h1
    unfold businessNameOf candPairs business_name_keys
    simp only [List.map_cons, List.map_nil]
    rw [pget_setKey_ne (show "business name" ≠ "business_name" by decide),
        pget_setKey_self h2,
        pget_setKey_ne (show "businessName" ≠ "business_name" by decide),
        pget_setKey_ne (show "company" ≠ "business_name" by decide),
        pget_setKey_ne (show "companyName" ≠ "business_name" by decide),
        pget_setKey_ne (show "Provider Name" ≠ "business_name" by decide),
        pget_setKey_ne (show "Legal Company Name" ≠ "business_name" by decide),
        hv0, pget_none_of_hasKey_false h2]
    simp only [Option.getD_some]
    by_cases hcv : (pyTruthy v0 && pyStripStr (pyStr v0) != "") = true
    · simp [firstFieldMatch, hcv]
    · simp [firstFieldMatch, hcv]
  · simp only [Bool.not_eq_true] at hc
    simp [hc]

theorem businessNameOf_normalizeNameKey (sd : Payload) :
    businessNameOf (normalizeNameKey sd) = businessNameOf sd := by
  simp only [normalizeNameKey]
  by_cases hc : (hasKey sd "name" && (!hasKey sd "first_name" && !hasKey sd "last_name")) = true
  · simp only [hc, if_true]
    apply businessNameOf_congr
    intro k hk
    have h1 : k ≠ "last_name" ∧ k ≠ "first_name" := by
      simp only [business_name_keys, List.mem_cons, List.not_mem_nil, or_false] at hk
      rcases hk with rfl | rfl | rfl | rfl | rfl | rfl | rfl <;>
        exact ⟨by decide, by decide⟩
    rw [pget_setKey_ne h1.1, pget_setKey_ne h1.2]
  · simp only [Bool.not_eq_true] at hc
    simp [hc]

theorem businessNameOf_normalizeSurveyData (p : Payload) :
    businessNameOf (normalizeSurveyData p) = businessNameOf p := by
  unfold normalizeSurveyData
  rw [businessNameOf_normalizeNameKey, businessNameOf_normalizeBusinessKey]

theorem setKey_isEmpty_false {d : Payload} {k : String} {v : Val}
    (h : d.isEmpty = false) : (setKey d k v).isEmpty = false := by
  unfold setKey
  split
  · cases d with
    | nil => simp at h
    | cons a t => simp
  · cases d with
    | nil => simp at h
    | cons a t => simp

theorem normalizeBusinessKey_isEmpty_false {p : Payload} (h : p.isEmpty = false) :
    (normalizeBusinessKey p).isEmpty = false := by
  unfold normalizeBusinessKey
  split
  · exact setKey_isEmpty_false h
  · exact h

theorem normalizeNameKey_isEmpty_false {sd : Payload} (h : sd.isEmpty = false) :
    (normalizeNameKey sd).isEmpty = false := by
  unfold normalizeNameKey
  split
  · exact setKey_isEmpty_false (setKey_isEmpty_false h)
  · exact h

theorem normalizeSurveyData_isEmpty_false {p : Payload} (h : p.isEmpty = false) :
    (normalizeSurveyData p).isEmpty = false :=
  normalizeNameKey_isEmpty_false (normalizeBusinessKey_isEmpty_false h)

theorem extractSourceLocationId_nil :
    extractSourceLocationId [] = Except.ok (Val.s "") := rfl

theorem isEmpty_false_of_extract_truthy {p : Payload} {v : Val}
    (hx : extractSourceLocationId p = Except.ok v) (ht : pyTruthy v = true) :
    p.isEmpty = false := by
  cases p with
  | cons a t => rfl
  | nil =>
    rw [extractSourceLocationId_nil] at hx
    have hv : v = Val.s "" := (Except.ok.inj hx).symm
    rw [hv] at ht
    simp [pyTruthy] at ht

/-! ## Claim C3 -/

/-- C3: the handler responds 403 exactly when the payload yields a truthy
source-location identifier that differs from the configured one; a 403 is
produced before the Normalizer is invoked and before any outbound call;
and when the extracted identifier is falsy (absent or empty) on a
non-empty payload, the check is skipped and processing proceeds into the
Normalizer.  (An entirely empty payload is rejected earlier as missing
JSON, before the source check.) -/
theorem source_check_403_iff (cfg now : String) (a : Option String) (p : Payload)
    (o : HttpOutcome) :
    ((handle_survey_completion cfg a (some p) o now).status = 403 ↔
      ∃ v, extractSourceLocationId p = Except.ok v ∧ pyTruthy v = true
        ∧ validate_cell_products_source cfg v = false)
    ∧ ((handle_survey_completion cfg a (some p) o now).status = 403 →
        (handle_survey_completion cfg a (some p) o now).normalizerInvoked = false
        ∧ (handle_survey_completion cfg a (some p) o now).callIssued = false)
    ∧ (∀ v : Val, p.isEmpty = false → extractSourceLocationId p = Except.ok v →
        pyTruthy v = false →
        (handle_survey_completion cfg a (some p) o now).normalizerInvoked = true) := by
  by_cases hp : p.isEmpty = true
  · have hh : handle_survey_completion cfg a (some p) o now
        = ⟨400, .err "No JSON payload", false, false⟩ := by
      simp [handle_survey_completion, hp]
    refine ⟨⟨?_, ?_⟩, ?_, ?_⟩
    · intro h; rw [hh] at h; simp at h
    · rintro ⟨v, hv, ht, _⟩
      have hf := isEmpty_false_of_extract_truthy hv ht
      rw [hp] at hf; exact Bool.noConfusion hf
    · intro h; rw [hh] at h; simp at h
    · intro v hpf; rw [hp] at hpf; exact fun _ _ => Bool.noConfusion hpf
  · have hp' : p.isEmpty = false := by revert hp; cases p.isEmpty <;> simp
    cases hx : extractSourceLocationId p with
    | error m =>
      have hh : handle_survey_completion cfg a (some p) o now
          = ⟨500, .failure ("Survey webhook processing error: " ++ m) now,
             false, false⟩ := by
        simp [handle_survey_completion, hp', hx]
      refine ⟨⟨?_, ?_⟩, ?_, ?_⟩
      · intro h; rw [hh] at h; simp at h
      · rintro ⟨v, hv, _, _⟩
        exact Except.noConfusion hv
      · intro h; rw [hh] at h; simp at h
      · intro v _ hxv
        exact fun _ => Except.noConfusion hxv
    | ok src =>
      by_cases hc : (pyTruthy src && !validate_cell_products_source cfg src) = true
      · have hh : handle_survey_completion cfg a (some p) o now
            = ⟨403, .err "Unauthorized source location", false, false⟩ := by
          simp [handle_survey_completion, hp', hx, hc]
        have htv : pyTruthy src = true ∧ validate_cell_products_source cfg src = false := by
          simpa using hc
        refine ⟨⟨?_, ?_⟩, ?_, ?_⟩
        · intro _; exact ⟨src, rfl, htv.1, htv.2⟩
        · intro _; rw [hh]
        · intro _; rw [hh]; exact ⟨rfl, rfl⟩
        · intro v _ hxv htf
          have hsv : src = v := Except.ok.inj hxv
          rw [← hsv, htv.1] at htf
          exact Bool.noConfusion htf
      · have hc' : (pyTruthy src && !validate_cell_products_source cfg src) = false := by
          revert hc
          cases (pyTruthy src && !validate_cell_products_source cfg src) <;> simp
        have hsd : (normalizeSurveyData p).isEmpty = false :=
          normalizeSurveyData_isEmpty_false hp'
        have hnot : ¬ ∃ v, (Except.ok src : Except String Val) = Except.ok v
            ∧ pyTruthy v = true ∧ validate_cell_products_source cfg v = false := by
          rintro ⟨v, hxv, ht, hvf⟩
          have hsv : src = v := Except.ok.inj hxv
          rw [← hsv] at ht hvf
          rw [ht, hvf] at hc'
          simp at hc'
        cases hcr : create_subaccount_from_survey_data (normalizeSurveyData p) o now with
        | ok id bn cn em ca =>
          have hh : handle_survey_completion cfg a (some p) o now
              = ⟨200, .success id bn cn em ca now, true,
                 outboundCallIssued (normalizeSurveyData p)⟩ := by
            simp [handle_survey_completion, hp', hx, hc', hsd, hcr]
          refine ⟨⟨?_, fun h => absurd h hnot⟩, ?_, ?_⟩
          · intro h; rw [hh] at h; simp at h
          · intro h; rw [hh] at h; simp at h
          · intro v _ _ _; rw [hh]
        | fail e =>
          have hh : handle_survey_completion cfg a (some p) o now
              = ⟨500, .failure e now, true,
                 outboundCallIssued (normalizeSurveyData p)⟩ := by
            simp [handle_survey_completion, hp', hx, hc', hsd, hcr]
          refine ⟨⟨?_, fun h => absurd h hnot⟩, ?_, ?_⟩
          · intro h; rw [hh] at h; simp at h
          · intro h; rw [hh] at h; simp at h
          · intro v _ _ _; rw [hh]

/-- Witness for C3: a payload carrying a location id different from the
configured one is rejected with 403 without invoking the Normalizer. -/
theorem source_check_403_iff_witness :
    (handle_survey_completion "LOC1" none (some [("locationId", Val.s "LOC2")])
      (.resp ⟨200, [], ""⟩) "t").status = 403
    ∧ (handle_survey_completion "LOC1" none (some [("locationId", Val.s "LOC2")])
      (.resp ⟨200, [], ""⟩) "t").normalizerInvoked = false := by
  have h := source_check_403_iff "LOC1" "t" none [("locationId", Val.s "LOC2")]
    (.resp ⟨200, [], ""⟩)
  have h403 := h.1.mpr ⟨Val.s "LOC2", by decide, by decide, by decide⟩
  exact ⟨h403, (h.2.1 h403).1⟩

/-! ## Claim C6 -/

/-- C6 counterexample: a payload with an email but no business-name
candidate is answered with HTTP 500, not with the claimed 400. -/
theorem missing_business_name_500_counterexample :
    (handle_survey_completion "10SapwdFnQK3Kwqp5ecv" none
      (some [("email", Val.s "a@b.c")]) (.resp ⟨200, [], ""⟩) "t").status = 500 := by
  decide

/-- C6 (amended): for every non-empty payload that passes the source check
and in which every business-name candidate is empty after trimming, the
endpoint responds with HTTP 500 (the validation error is swallowed by the
generic failure path) and no outbound call is issued; missing business
name is surfaced as a 500, not as a 4xx.  Only a missing or empty JSON
body yields 400. -/
theorem missing_business_name_500_amended (cfg now : String) (a : Option String)
    (p : Payload) (o : HttpOutcome) (v : Val)
    (hp : p.isEmpty = false)
    (hx : extractSourceLocationId p = Except.ok v)
    (hv : pyTruthy v = true → validate_cell_products_source cfg v = true)
    (hbn : businessNameOf p = "") :
    (handle_survey_completion cfg a (some p) o now).status = 500
    ∧ (handle_survey_completion cfg a (some p) o now).callIssued = false := by
  have hbn' : businessNameOf (normalizeSurveyData p) = "" := by
    rw [businessNameOf_normalizeSurveyData]; exact hbn
  obtain ⟨e, he⟩ := normalize_error_of_missing (normalizeSurveyData p) (Or.inl hbn')
  have hcr : create_subaccount_from_survey_data (normalizeSurveyData p) o now
      = .fail ("Error creating sub-account: " ++ e) := by
    simp [create_subaccount_from_survey_data, he]
  have hci : outboundCallIssued (normalizeSurveyData p) = false := by
    simp [outboundCallIssued, he]
  have hc' : (pyTruthy v && !validate_cell_products_source cfg v) = false := by
    cases ht : pyTruthy v
    · simp
    · simp [hv ht]
  have hsd := normalizeSurveyData_isEmpty_false hp
  have hh : handle_survey_completion cfg a (some p) o now
      = ⟨500, .failure ("Error creating sub-account: " ++ e) now, true, false⟩ := by
    simp [handle_survey_completion, hp, hx, hc', hsd, hcr, hci]
  rw [hh]
  exact ⟨rfl, rfl⟩

/-- Witness for C6 (amended): a concrete payload with an email and no
business name gets a 500 response. -/
theorem missing_business_name_500_amended_witness :
    (handle_survey_completion "LOC1" none (some [("email", Val.s "a@b.c")])
      (.resp ⟨200, [], ""⟩) "t").status = 500 := by
  have h := missing_business_name_500_amended "LOC1" "t" none
    [("email", Val.s "a@b.c")] (.resp ⟨200, [], ""⟩) (Val.s "")
    (by decide) (by decide) (fun ht => absurd ht (by decide)) (by decide)
  exact h.1
